import Mathlib

namespace WeatherDashboard

/-- Model of the JS method toLowerCase on a single character (ASCII letters). -/
def charToLower (c : Char) : Char :=
  if 65 ≤ c.toNat && c.toNat ≤ 90 then Char.ofNat (c.toNat + 32) else c

/-- Model of the JS string method toLowerCase used by the source comparisons. -/
def jsToLower (s : String) : String :=
  String.mk (s.toList.map charToLower)

/-- Does the pattern match at the head of the character list. -/
def charsMatchAt : List Char → List Char → Bool
  | [], _ => true
  | _ :: _, [] => false
  | p :: ps, c :: cs => p == c && charsMatchAt ps cs

/-- Does the character list contain the pattern as a contiguous run. -/
def charsContain (pat : List Char) : List Char → Bool
  | [] => charsMatchAt pat []
  | c :: cs => charsMatchAt pat (c :: cs) || charsContain pat cs

/-- Model of the JS string method includes used by the source. -/
def jsIncludes (s pat : String) : Bool :=
  charsContain pat.toList s.toList

/-- Model of the JS string length used by the suggestion-query guard. -/
def jsLength (s : String) : Nat := s.toList.length

/-- Whitespace test for the trim model (common ASCII whitespace). -/
def isJsSpace (c : Char) : Bool := c == ' ' || c == '\t' || c == '\n' || c == '\r'

/-- Model of the JS string method trim. -/
def jsTrim (s : String) : String :=
  String.mk (((s.toList.dropWhile isJsSpace).reverse.dropWhile isJsSpace).reverse)

/-- Characters before the first comma: model of city.split(",")[0]. -/
def takeUntilComma : List Char → List Char
  | [] => []
  | c :: cs => if c == ',' then [] else c :: takeUntilComma cs

/-- The display name computed in fetchWeather: city.split(",")[0].trim(). -/
def jsDisplayCity (city : String) : String :=
  jsTrim (String.mk (takeUntilComma city.toList))

/-- Parsed JSON shape of the current-weather object. Every field may be absent
    because the backend response is untrusted; JS numbers are modelled as Int. -/
structure RawCurrent where
  temp : Option Int
  humidity : Option Int
  wind_speed : Option Int
  description : Option String
deriving DecidableEq

/-- Parsed JSON shape of one forecast entry. -/
structure RawDay where
  day : Option String
  temp_high : Option Int
  temp_low : Option Int
  description : Option String
deriving DecidableEq

/-- Parsed JSON shape of the whole weather response. -/
structure RawWeather where
  current : Option RawCurrent
  forecast : Option (List RawDay)
deriving DecidableEq

/-- Comparison o > n where an absent field behaves like JS undefined: the
    comparison is always false. -/
def optGt (o : Option Int) (n : Int) : Bool :=
  match o with
  | some v => decide (n < v)
  | none => false

/-- Comparison o < n where an absent field behaves like JS undefined. -/
def optLt (o : Option Int) (n : Int) : Bool :=
  match o with
  | some v => decide (v < n)
  | none => false

/-- The four alert pills produced by displayWeatherAlerts. -/
inductive Alert where
  | heat
  | cold
  | wind
  | storm
deriving DecidableEq

/-- Source displayWeatherAlerts: temperature pills (else-if pair), then the wind
    pill, then the storm pill. The Bool records whether the function ran to the
    end: reading description of a record without one throws after the first two
    groups were already appended. -/
def displayWeatherAlerts (current : RawCurrent) : List Alert × Bool :=
  let tempPills : List Alert :=
    if optGt current.temp 30 then [.heat]
    else if optLt current.temp 5 then [.cold]
    else []
  let windPills : List Alert :=
    if optGt current.wind_speed 30 then [.wind] else []
  match current.description with
  | none => (tempPills ++ windPills, false)
  | some d =>
    let desc := jsToLower d
    let stormPills : List Alert :=
      if jsIncludes desc "storm" || jsIncludes desc "thunder" then [.storm] else []
    (tempPills ++ windPills ++ stormPills, true)

/-- Icon, animation class and background class chosen by getWeatherIcon. -/
structure IconInfo where
  icon : String
  animationClass : String
  backgroundClass : String
deriving DecidableEq

/-- Source getWeatherIcon: first matching keyword wins. -/
def getWeatherIcon (description : String) : IconInfo :=
  let desc := jsToLower description
  if jsIncludes desc "clear" then ⟨"☀️", "animate-sun", "bg-sunny"⟩
  else if jsIncludes desc "cloud" then ⟨"☁️", "animate-cloud", "bg-cloudy"⟩
  else if jsIncludes desc "rain" then ⟨"🌧️", "animate-rain", "bg-rainy"⟩
  else if jsIncludes desc "storm" || jsIncludes desc "thunder" then
    ⟨"⛈️", "animate-storm", "bg-stormy"⟩
  else if jsIncludes desc "snow" then ⟨"❄️", "animate-snow", "bg-snowy"⟩
  else if jsIncludes desc "mist" || jsIncludes desc "fog" then
    ⟨"🌫️", "animate-mist", "bg-misty"⟩
  else ⟨"🌍", "", "bg-default"⟩

/-- Source addFavorite over the favorites list. The Bool records whether
    saveFavorites ran, i.e. whether the list was mutated and persisted. -/
def addFavorite (favorites : List String) (cityToAdd : String) : List String × Bool :=
  if favorites.any (fun city => jsToLower city == jsToLower cityToAdd) then
    (favorites, false)
  else
    (favorites ++ [cityToAdd], true)

/-- JSON values as produced by JSON.parse. -/
inductive JsonValue where
  | jnull
  | jbool (b : Bool)
  | jnum (n : Int)
  | jstr (s : String)
  | jarr (elems : List JsonValue)

/-- The possible reads of localStorage under the favorites key, classified by
    how JSON.parse treats the stored text. presentEmpty is the empty string,
    which is falsy in JS, so the source skips parsing it. -/
inductive StorageRead where
  | absent
  | presentEmpty
  | presentParsable (v : JsonValue)
  | presentCorrupt

/-- Source loadFavorites: getItem, a truthiness test, then an unguarded
    JSON.parse assigned to the favorites global. The result is the value the
    favorites global holds afterwards (as a JSON value), or an error when
    JSON.parse throws on unparsable text. -/
def loadFavorites (stored : StorageRead) (favorites : List String) :
    Except Unit JsonValue :=
  match stored with
  | .absent => .ok (.jarr (favorites.map .jstr))
  | .presentEmpty => .ok (.jarr (favorites.map .jstr))
  | .presentParsable v => .ok v
  | .presentCorrupt => .error ()

/-- Text shown for a rounded numeric field; an absent field makes Math.round
    produce NaN, which the template string renders as NaN. -/
def jsRoundText (o : Option Int) : String :=
  match o with
  | some n => toString n
  | none => "NaN"

/-- Text interpolated for a possibly absent numeric field. -/
def jsNumText (o : Option Int) : String :=
  match o with
  | some n => toString n
  | none => "undefined"

/-- Assignment of a possibly absent string to textContent (undefined is
    converted to null and then to the empty string). -/
def jsStrText (o : Option String) : String := o.getD ""

/-- One rendered forecast card. -/
structure ForecastCard where
  dayText : String
  icon : String
  animationClass : String
  tempText : String
deriving DecidableEq

/-- The rendered weather content: the text and classes the UI update functions
    of the source write into the DOM. -/
structure Display where
  cityName : String
  date : String
  icon : String
  animationClass : String
  backgroundClass : String
  tempText : String
  descriptionText : String
  humidityText : String
  windText : String
  alerts : List Alert
  forecastCards : List ForecastCard
deriving DecidableEq

/-- The UI phase set by showLoading, showContent and showError. -/
inductive UIPhase where
  | loading
  | content
  | error
deriving DecidableEq

/-- The mutable app session state: the globals of the source plus the DOM
    state the source reads back or overwrites. -/
structure AppState where
  currentCity : String
  favorites : List String
  phase : UIPhase
  errorMessage : String
  searching : Bool
  searchDisabled : Bool
  suggLoading : Bool
  suggestionsBox : Option (List String)
  favGlyphFilled : Bool
  display : Display
deriving DecidableEq

/-- Display state used as the concrete initial DOM content in examples. -/
def emptyDisplay : Display :=
  ⟨"", "", "", "", "", "", "", "", "", [], []⟩

/-- The state at startup: currentCity defaults to London, favorites is empty. -/
def initialState : AppState :=
  ⟨"London", [], .loading, "", false, false, false, none, false, emptyDisplay⟩

/-- Source showLoading; the hidden-class shuffling is modelled as the phase. -/
def showLoading (st : AppState) : AppState := { st with phase := .loading }

/-- Source showContent. -/
def showContent (st : AppState) : AppState := { st with phase := .content }

/-- Source showError. -/
def showError (message : String) (st : AppState) : AppState :=
  { st with phase := .error, errorMessage := message }

/-- Source hideSuggestions. -/
def hideSuggestions (st : AppState) : AppState := { st with suggestionsBox := none }

/-- Source updateFavoriteButton: the star glyph reflects case-insensitive
    membership of currentCity in favorites. -/
def updateFavoriteButton (st : AppState) : AppState :=
  { st with favGlyphFilled :=
      st.favorites.any (fun city => jsToLower city == jsToLower st.currentCity) }

/-- Source displayCurrentWeather. Fields are written in source order; reading
    description of an absent current object (or passing an absent description
    to getWeatherIcon) throws, after the city name and date were already
    written. The Bool is false when the function threw partway. -/
def displayCurrentWeather (city : String) (current : Option RawCurrent)
    (today : String) (d : Display) : Display × Bool :=
  let d1 := { d with cityName := city, date := today }
  match current with
  | none => (d1, false)
  | some c =>
    match c.description with
    | none => (d1, false)
    | some desc =>
      let info := getWeatherIcon desc
      let d2 := { d1 with
        icon := info.icon
        animationClass := info.animationClass
        backgroundClass := info.backgroundClass
        tempText := jsRoundText c.temp ++ "°C"
        descriptionText := desc
        humidityText := jsNumText c.humidity ++ "%"
        windText := jsNumText c.wind_speed ++ " km/h" }
      let pills := displayWeatherAlerts c
      ({ d2 with alerts := pills.1 }, pills.2)

/-- Source displayForecast per-day loop: a day without a description makes
    getWeatherIcon throw before the card of that day is appended. -/
def renderForecastDays : List RawDay → List ForecastCard → List ForecastCard × Bool
  | [], acc => (acc, true)
  | day :: rest, acc =>
    match day.description with
    | none => (acc, false)
    | some desc =>
      let info := getWeatherIcon desc
      let card : ForecastCard :=
        ⟨jsStrText day.day, info.icon, info.animationClass,
         jsRoundText day.temp_high ++ "° / " ++ jsRoundText day.temp_low ++ "°"⟩
      renderForecastDays rest (acc ++ [card])

/-- Source displayForecast: the container is cleared first, so slicing an
    absent forecast throws with the container already cleared. -/
def displayForecast (forecast : Option (List RawDay)) : List ForecastCard × Bool :=
  match forecast with
  | none => ([], false)
  | some days => renderForecastDays (days.take 5) []

/-- The outcome of the awaited backend call plus JSON.parse, as observed by
    the rest of the try block of fetchWeather. -/
inductive WeatherOutcome where
  | transportFailure
  | parseFailure
  | parsed (w : RawWeather)
deriving DecidableEq

/-- The part of the try block of fetchWeather that runs after JSON.parse
    succeeded: currentCity is assigned, the favorite glyph refreshed, then the
    two display functions run (either may throw partway). The Bool is false
    when a throw occurred. -/
def fetchWeatherTryBody (city : String) (w : RawWeather) (today : String)
    (st : AppState) : AppState × Bool :=
  let st1 := updateFavoriteButton { st with currentCity := city }
  let dcw := displayCurrentWeather (jsDisplayCity city) w.current today st1.display
  let st2 := { st1 with display := dcw.1 }
  if dcw.2 then
    let df := displayForecast w.forecast
    ({ st2 with display := { st2.display with forecastCards := df.1 } }, df.2)
  else
    (st2, false)

/-- The success epilogue, catch and finally of fetchWeather: on success a
    non-refresh call shows the content, on a throw a non-refresh call shows
    the fixed error message; the finally block re-enables the search control
    for non-refresh calls. Auto-refresh calls touch nothing here. -/
def fetchWeatherFinalize (isAutoRefresh : Bool) (body : AppState × Bool) :
    AppState × Bool :=
  let stAfter :=
    if body.2 then
      if isAutoRefresh then body.1 else showContent body.1
    else
      if isAutoRefresh then body.1
      else showError "Could not retrieve weather data. Please try another city." body.1
  (if isAutoRefresh then stAfter
   else { stAfter with searching := false, searchDisabled := false },
   body.2)

/-- The synchronous prefix of fetchWeather, run when the request is issued:
    a non-refresh call hides suggestions, shows the loader and disables the
    search control; an auto-refresh call changes nothing here. -/
def fetchWeatherStart (isAutoRefresh : Bool) (st : AppState) : AppState :=
  if isAutoRefresh then st
  else
    { hideSuggestions (showLoading st) with
        searching := true, searchDisabled := true }

/-- The resumption of fetchWeather when its response arrives: the remainder of
    the try block applied to the state at completion time. -/
def fetchWeatherComplete (city : String) (isAutoRefresh : Bool)
    (outcome : WeatherOutcome) (today : String) (st : AppState) : AppState × Bool :=
  match outcome with
  | .transportFailure => fetchWeatherFinalize isAutoRefresh (st, false)
  | .parseFailure => fetchWeatherFinalize isAutoRefresh (st, false)
  | .parsed w => fetchWeatherFinalize isAutoRefresh (fetchWeatherTryBody city w today st)

/-- A whole fetchWeather invocation with no interleaved steps: the start at
    issue time immediately followed by the completion. -/
def fetchWeather (city : String) (isAutoRefresh : Bool) (outcome : WeatherOutcome)
    (today : String) (st : AppState) : AppState × Bool :=
  fetchWeatherComplete city isAutoRefresh outcome today
    (fetchWeatherStart isAutoRefresh st)

/-- Outcome of an issued suggestion request. -/
inductive SuggOutcome where
  | failure
  | success (suggestions : List String)
deriving DecidableEq

/-- Source displaySuggestions: an empty list hides the box, a non-empty list
    replaces its contents and shows it. -/
def displaySuggestions (suggestions : List String) (st : AppState) : AppState :=
  if suggestions.isEmpty then hideSuggestions st
  else { st with suggestionsBox := some suggestions }

/-- The synchronous prefix of fetchCitySuggestions: a query shorter than three
    characters hides the box, clears the loading class and returns without any
    network call; otherwise the loading class is set and the request issued.
    The Bool records whether a network call was issued. -/
def fetchCitySuggestionsStart (query : String) (st : AppState) : AppState × Bool :=
  if jsLength query < 3 then
    ({ hideSuggestions st with suggLoading := false }, false)
  else
    ({ st with suggLoading := true }, true)

/-- The resumption of fetchCitySuggestions when its response arrives: a
    successful list is rendered unconditionally, a failure hides the box; the
    finally block clears the loading class. -/
def fetchCitySuggestionsComplete (outcome : SuggOutcome) (st : AppState) : AppState :=
  let st1 :=
    match outcome with
    | .success suggestions => displaySuggestions suggestions st
    | .failure => hideSuggestions st
  { st1 with suggLoading := false }

/-- Sample well-formed weather response used as a concrete test input. -/
def wLondon : RawWeather :=
  ⟨some ⟨some 7, some 80, some 10, some "cloudy"⟩,
   some [⟨some "Mon", some 8, some 2, some "cloudy"⟩]⟩

/-- Second sample well-formed weather response. -/
def wParis : RawWeather :=
  ⟨some ⟨some 25, some 60, some 5, some "rain"⟩, some []⟩

/-- Third sample well-formed weather response. -/
def wTokyo : RawWeather :=
  ⟨some ⟨some 10, some 50, some 20, some "clear sky"⟩, some []⟩

/-- Sample response that parses but carries no forecast array: rendering
    throws after the current-weather section was already updated. -/
def wNoForecast : RawWeather :=
  ⟨some ⟨some 20, some 40, some 12, some "clear sky"⟩, none⟩

/-- Claim C6: for every current-weather record, the heat alert is shown iff
    temperature > 30 strictly, the cold alert iff temperature < 5 and never
    together with the heat alert, the wind alert iff wind speed > 30 strictly,
    and the storm alert iff the description contains storm or thunder
    case-insensitively; the four checks are independent as stated. -/
theorem alert_thresholds (t hu w : Int) (d : String) :
    (Alert.heat ∈ (displayWeatherAlerts ⟨some t, some hu, some w, some d⟩).1
      ↔ 30 < t) ∧
    (Alert.cold ∈ (displayWeatherAlerts ⟨some t, some hu, some w, some d⟩).1
      ↔ t < 5) ∧
    ¬(Alert.heat ∈ (displayWeatherAlerts ⟨some t, some hu, some w, some d⟩).1 ∧
      Alert.cold ∈ (displayWeatherAlerts ⟨some t, some hu, some w, some d⟩).1) ∧
    (Alert.wind ∈ (displayWeatherAlerts ⟨some t, some hu, some w, some d⟩).1
      ↔ 30 < w) ∧
    (Alert.storm ∈ (displayWeatherAlerts ⟨some t, some hu, some w, some d⟩).1
      ↔ (jsIncludes (jsToLower d) "storm" = true ∨
         jsIncludes (jsToLower d) "thunder" = true)) := by
  simp only [displayWeatherAlerts, optGt, optLt]
  split_ifs <;> simp_all [List.mem_append] <;> omega

/-- Claim C7: adding a favorite is a no-op (same list, nothing persisted) when
    a case-insensitively equal entry already exists, and otherwise appends the
    city at the end and persists. -/
theorem addFavorite_idempotent (favs : List String) (c : String) :
    addFavorite favs c =
      if ∃ x ∈ favs, jsToLower x = jsToLower c then (favs, false)
      else (favs ++ [c], true) := by
  by_cases hc : ∃ x ∈ favs, jsToLower x = jsToLower c
  · rw [if_pos hc]
    have hb : favs.any (fun city => jsToLower city == jsToLower c) = true := by
      rw [List.any_eq_true]
      obtain ⟨x, hx, hxe⟩ := hc
      exact ⟨x, hx, by simp [hxe]⟩
    simp [addFavorite, hb]
  · rw [if_neg hc]
    have hb : favs.any (fun city => jsToLower city == jsToLower c) = false := by
      rw [List.any_eq_false]
      intro x hx
      simp only [beq_iff_eq]
      exact fun hxe => hc ⟨x, hx, hxe⟩
    simp [addFavorite, hb]

/-- Claim C4 counterexample: when the stored favorites text is non-empty and
    not parsable as JSON, loadFavorites throws (the JSON.parse exception is
    uncaught), contradicting the claim that loading never throws. -/
theorem loadFavorites_corrupt_throws :
    loadFavorites .presentCorrupt [] = .error () := rfl

/-- Claim C4 (amended): loading favorites throws exactly when the stored text
    is non-empty and unparsable; an absent or empty value leaves the favorites
    list as it was (empty at startup), and any parsable JSON value is installed
    as-is, even when it is not an array of strings. -/
theorem loadFavorites_amended (favs : List String) (s : StorageRead) :
    ((loadFavorites s favs).isOk = false ↔ s = .presentCorrupt) ∧
    loadFavorites .absent favs = .ok (.jarr (favs.map .jstr)) ∧
    loadFavorites .presentEmpty favs = .ok (.jarr (favs.map .jstr)) ∧
    (∀ v, loadFavorites (.presentParsable v) favs = .ok v) := by
  refine ⟨?_, rfl, rfl, fun v => rfl⟩
  cases s <;> simp [loadFavorites, Except.isOk, Except.toBool]

lemma displayCurrentWeather_fst_cityName (city : String) (cur : Option RawCurrent)
    (today : String) (d : Display) :
    (displayCurrentWeather city cur today d).1.cityName = city := by
  unfold displayCurrentWeather
  rcases cur with _ | ⟨t, hu, ws, desc⟩
  · rfl
  · cases desc <;> rfl

lemma fetchWeatherTryBody_fst_currentCity (city : String) (w : RawWeather)
    (today : String) (st : AppState) :
    (fetchWeatherTryBody city w today st).1.currentCity = city := by
  simp only [fetchWeatherTryBody, updateFavoriteButton]
  split <;> rfl

lemma fetchWeatherTryBody_fst_cityName (city : String) (w : RawWeather)
    (today : String) (st : AppState) :
    (fetchWeatherTryBody city w today st).1.display.cityName = jsDisplayCity city := by
  simp only [fetchWeatherTryBody, updateFavoriteButton]
  split <;> simp [displayCurrentWeather_fst_cityName]

lemma fetchWeatherTryBody_fst_favGlyph (city : String) (w : RawWeather)
    (today : String) (st : AppState) :
    (fetchWeatherTryBody city w today st).1.favGlyphFilled =
      st.favorites.any (fun c => jsToLower c == jsToLower city) := by
  simp only [fetchWeatherTryBody, updateFavoriteButton]
  split <;> rfl

lemma fetchWeatherTryBody_frame (city : String) (w : RawWeather) (today : String)
    (st : AppState) :
    (fetchWeatherTryBody city w today st).1.phase = st.phase ∧
    (fetchWeatherTryBody city w today st).1.errorMessage = st.errorMessage ∧
    (fetchWeatherTryBody city w today st).1.searching = st.searching ∧
    (fetchWeatherTryBody city w today st).1.searchDisabled = st.searchDisabled ∧
    (fetchWeatherTryBody city w today st).1.suggLoading = st.suggLoading ∧
    (fetchWeatherTryBody city w today st).1.suggestionsBox = st.suggestionsBox ∧
    (fetchWeatherTryBody city w today st).1.favorites = st.favorites := by
  simp only [fetchWeatherTryBody, updateFavoriteButton]
  split <;> exact ⟨rfl, rfl, rfl, rfl, rfl, rfl, rfl⟩

lemma fetchWeatherFinalize_true (body : AppState × Bool) :
    fetchWeatherFinalize true body = body := by
  rcases body with ⟨st, ok⟩
  cases ok <;> rfl

lemma fetchWeatherFinalize_fst_currentCity (auto : Bool) (body : AppState × Bool) :
    (fetchWeatherFinalize auto body).1.currentCity = body.1.currentCity := by
  rcases body with ⟨st, ok⟩
  cases auto <;> cases ok <;> rfl

lemma fetchWeatherFinalize_fst_cityName (auto : Bool) (body : AppState × Bool) :
    (fetchWeatherFinalize auto body).1.display.cityName
      = body.1.display.cityName := by
  rcases body with ⟨st, ok⟩
  cases auto <;> cases ok <;> rfl

lemma fetchWeatherFinalize_fst_favGlyph (auto : Bool) (body : AppState × Bool) :
    (fetchWeatherFinalize auto body).1.favGlyphFilled = body.1.favGlyphFilled := by
  rcases body with ⟨st, ok⟩
  cases auto <;> cases ok <;> rfl

lemma fetchWeatherComplete_parsed_fst_currentCity (city : String) (auto : Bool)
    (w : RawWeather) (today : String) (st : AppState) :
    (fetchWeatherComplete city auto (.parsed w) today st).1.currentCity = city := by
  have h := fetchWeatherFinalize_fst_currentCity auto (fetchWeatherTryBody city w today st)
  exact h.trans (fetchWeatherTryBody_fst_currentCity city w today st)

lemma fetchWeatherComplete_parsed_fst_cityName (city : String) (auto : Bool)
    (w : RawWeather) (today : String) (st : AppState) :
    (fetchWeatherComplete city auto (.parsed w) today st).1.display.cityName
      = jsDisplayCity city := by
  have h := fetchWeatherFinalize_fst_cityName auto (fetchWeatherTryBody city w today st)
  exact h.trans (fetchWeatherTryBody_fst_cityName city w today st)

/-- Claim C1 counterexample: a search for Tokyo is in flight when a search for
    Paris is issued; the Paris response completes first and the Tokyo response
    last. Afterwards the UI shows the Tokyo data and currentCity is Tokyo, not
    Paris: the older in-flight explicit-search response overwrote the newer
    search's UI state. -/
theorem stale_search_overwrites_cex :
    let s2 := fetchWeatherStart false (fetchWeatherStart false initialState)
    let s3 := (fetchWeatherComplete "Paris" false (.parsed wParis) "d" s2).1
    let s4 := (fetchWeatherComplete "Tokyo" false (.parsed wTokyo) "d" s3).1
    s3.currentCity = "Paris" ∧ s3.display.cityName = "Paris" ∧
    s4.currentCity = "Tokyo" ∧ s4.display.cityName = "Tokyo" ∧
    s4.display.tempText = "10°C" ∧ s4.phase = .content := by decide

/-- Claim C1 (amended): fetchWeather has no request token, so whichever
    explicit-search response completes last determines the UI state: after two
    overlapping searches for cities b then a, with the response for a
    completing last, currentCity and the displayed city name are those of a,
    whatever the payloads are. -/
theorem explicit_search_last_completion_wins (a b t1 t2 : String)
    (wa wb : RawWeather) (st : AppState) :
    ((fetchWeatherComplete a false (.parsed wa) t2
        (fetchWeatherComplete b false (.parsed wb) t1
          (fetchWeatherStart false (fetchWeatherStart false st))).1).1.currentCity
      = a) ∧
    ((fetchWeatherComplete a false (.parsed wa) t2
        (fetchWeatherComplete b false (.parsed wb) t1
          (fetchWeatherStart false (fetchWeatherStart false st))).1).1.display.cityName
      = jsDisplayCity a) :=
  ⟨fetchWeatherComplete_parsed_fst_currentCity a false wa t2 _,
   fetchWeatherComplete_parsed_fst_cityName a false wa t2 _⟩

/-- Claim C2 counterexample: an auto-refresh is in flight for London (the
    currentCity read at fire time) when an explicit search switches the UI to
    Paris; the stale auto-refresh response then completes and overwrites both
    the displayed data and currentCity back to London. -/
theorem stale_autoRefresh_overwrites_cex :
    let st1 := (fetchWeather "London" false (.parsed wLondon) "d1" initialState).1
    let st2 := (fetchWeather "Paris" false (.parsed wParis) "d2" st1).1
    let st3 := (fetchWeatherComplete st1.currentCity true (.parsed wLondon) "d3" st2).1
    st1.currentCity = "London" ∧ st2.currentCity = "Paris" ∧
    st2.display.cityName = "Paris" ∧ st2.display.tempText = "25°C" ∧
    st3.currentCity = "London" ∧ st3.display.cityName = "London" ∧
    st3.display.tempText = "7°C" := by decide

/-- Claim C2 (amended): an auto-refresh completion is applied unconditionally:
    when an auto-refresh started for the then-current city completes after an
    intervening successful explicit search for another city, it overwrites the
    displayed city and resets currentCity to the old city. -/
theorem stale_autoRefresh_last_completion_overwrites (b t1 t2 : String)
    (wa wb : RawWeather) (st : AppState) :
    ((fetchWeatherComplete st.currentCity true (.parsed wa) t2
        (fetchWeather b false (.parsed wb) t1 st).1).1.currentCity
      = st.currentCity) ∧
    ((fetchWeatherComplete st.currentCity true (.parsed wa) t2
        (fetchWeather b false (.parsed wb) t1 st).1).1.display.cityName
      = jsDisplayCity st.currentCity) :=
  ⟨fetchWeatherComplete_parsed_fst_currentCity st.currentCity true wa t2 _,
   fetchWeatherComplete_parsed_fst_cityName st.currentCity true wa t2 _⟩

/-- Claim C3 (amended): an auto-refresh invocation never transitions the UI
    phase, never touches the error message, the search control flags, the
    suggestion box or the favorites; a transport or JSON-parse failure leaves
    the entire state unchanged; the completion re-asserts currentCity, a no-op
    for the city read at fire time. A response that parses but fails
    validation partway can however leave the displayed content partially
    updated, as the counterexample shows, so the failure case is silent but
    not always display-preserving. -/
theorem autoRefresh_silent (city today : String) (o : WeatherOutcome)
    (st : AppState) :
    ((fetchWeather city true o today st).1.phase = st.phase) ∧
    ((fetchWeather city true o today st).1.errorMessage = st.errorMessage) ∧
    ((fetchWeather city true o today st).1.searching = st.searching) ∧
    ((fetchWeather city true o today st).1.searchDisabled = st.searchDisabled) ∧
    ((fetchWeather city true o today st).1.suggestionsBox = st.suggestionsBox) ∧
    ((fetchWeather city true o today st).1.favorites = st.favorites) ∧
    (fetchWeather city true .transportFailure today st = (st, false)) ∧
    (fetchWeather city true .parseFailure today st = (st, false)) ∧
    ((fetchWeather st.currentCity true o today st).1.currentCity
      = st.currentCity) := by
  have hparsed : ∀ (c : String) (w : RawWeather),
      fetchWeather c true (.parsed w) today st = fetchWeatherTryBody c w today st := by
    intro c w
    show fetchWeatherFinalize true (fetchWeatherTryBody c w today st)
        = fetchWeatherTryBody c w today st
    exact fetchWeatherFinalize_true _
  cases o with
  | transportFailure => exact ⟨rfl, rfl, rfl, rfl, rfl, rfl, rfl, rfl, rfl⟩
  | parseFailure => exact ⟨rfl, rfl, rfl, rfl, rfl, rfl, rfl, rfl, rfl⟩
  | parsed w =>
    have hf := fetchWeatherTryBody_frame city w today st
    refine ⟨?_, ?_, ?_, ?_, ?_, ?_, rfl, rfl, ?_⟩
    · rw [hparsed city w]; exact hf.1
    · rw [hparsed city w]; exact hf.2.1
    · rw [hparsed city w]; exact hf.2.2.1
    · rw [hparsed city w]; exact hf.2.2.2.1
    · rw [hparsed city w]; exact hf.2.2.2.2.2.1
    · rw [hparsed city w]; exact hf.2.2.2.2.2.2
    · rw [hparsed st.currentCity w]
      exact fetchWeatherTryBody_fst_currentCity st.currentCity w today st

/-- Claim C3 counterexample: starting from a rendered content state, an
    auto-refresh response that parses but has no forecast array ends in the
    error branch, yet the displayed content changed: the temperature text was
    overwritten and the forecast cards were cleared. Phase and error message
    are untouched and no error is surfaced, but the display is not left
    completely unchanged on this failure. -/
theorem autoRefresh_partial_update_cex :
    let st1 := (fetchWeather "London" false (.parsed wLondon) "d1" initialState).1
    let r := fetchWeather "London" true (.parsed wNoForecast) "d2" st1
    r.2 = false ∧ r.1.phase = st1.phase ∧ r.1.errorMessage = st1.errorMessage ∧
    st1.display.tempText = "7°C" ∧ r.1.display.tempText = "20°C" ∧
    st1.display.forecastCards ≠ [] ∧ r.1.display.forecastCards = [] ∧
    r.1.display ≠ st1.display := by decide

/-- Claim C5 counterexample: a response whose text parses as JSON but lacks
    the required shape makes rendering throw, so the invocation ends in the
    error branch, yet currentCity was already mutated to the queried city
    before the throw. -/
theorem currentCity_mutated_in_error_branch_cex :
    ((fetchWeather "Paris" false (.parsed ⟨none, none⟩) "d" initialState).2
      = false) ∧
    ((fetchWeather "Paris" false (.parsed ⟨none, none⟩) "d" initialState).1.phase
      = .error) ∧
    ((fetchWeather "Paris" false (.parsed ⟨none, none⟩)
        "d" initialState).1.currentCity = "Paris") ∧
    initialState.currentCity = "London" := by decide

/-- Claim C5 (amended): currentCity is left unchanged only when the transport
    fails or the response text does not parse as JSON; as soon as JSON.parse
    succeeds, currentCity is set to the queried city, even when the subsequent
    validation and rendering fail and the invocation ends in the error
    branch. -/
theorem currentCity_mutation_boundary (city today : String) (st : AppState)
    (w : RawWeather) :
    ((fetchWeather city false .transportFailure today st).1.currentCity
      = st.currentCity) ∧
    ((fetchWeather city false .parseFailure today st).1.currentCity
      = st.currentCity) ∧
    ((fetchWeather city false (.parsed w) today st).1.currentCity = city) :=
  ⟨rfl, rfl,
   fetchWeatherComplete_parsed_fst_currentCity city false w today
     (fetchWeatherStart false st)⟩

/-- Claim C8: a partial query of fewer than 3 characters performs no network
    call and immediately yields the hidden suggestion state (box hidden and
    emptied, loading class cleared); the backend request is issued only for
    queries of at least 3 characters. -/
theorem short_query_skips_network (query : String) (st : AppState)
    (h : jsLength query < 3) :
    fetchCitySuggestionsStart query st
      = ({ st with suggestionsBox := none, suggLoading := false }, false) := by
  simp [fetchCitySuggestionsStart, hideSuggestions, h]

/-- Witness for the short-query theorem at the concrete query Lo. -/
theorem short_query_skips_network_witness :
    fetchCitySuggestionsStart "Lo" initialState
      = ({ initialState with suggestionsBox := none, suggLoading := false },
         false) :=
  short_query_skips_network "Lo" initialState (by decide)

/-- Claim C9 counterexample: a suggestion request for Lon is in flight when a
    newer debounce cycle fires for Lond; the newer response arrives and is
    rendered, then the stale Lon response arrives and is rendered too,
    replacing the newer content instead of being discarded. -/
theorem stale_suggestions_rendered_cex :
    let s1 := (fetchCitySuggestionsStart "Lon" initialState).1
    let s2 := (fetchCitySuggestionsStart "Lond" s1).1
    let s3 := fetchCitySuggestionsComplete (.success ["Londrina, Brazil"]) s2
    let s4 := fetchCitySuggestionsComplete
        (.success ["London, UK", "Long Beach, USA"]) s3
    (fetchCitySuggestionsStart "Lon" initialState).2 = true ∧
    (fetchCitySuggestionsStart "Lond" s1).2 = true ∧
    s3.suggestionsBox = some ["Londrina, Brazil"] ∧
    s4.suggestionsBox = some ["London, UK", "Long Beach, USA"] := by decide

/-- Claim C9 (amended): suggestion responses carry no staleness check and are
    rendered unconditionally in completion order, so the last non-empty
    response to arrive fills the suggestion box even when it belongs to an
    older debounce cycle. -/
theorem suggestions_last_completion_wins (st : AppState) (q1 q2 : String)
    (l2 : List String) (x : String) (xs : List String) :
    (fetchCitySuggestionsComplete (.success (x :: xs))
      (fetchCitySuggestionsComplete (.success l2)
        ((fetchCitySuggestionsStart q2
          ((fetchCitySuggestionsStart q1 st).1)).1))).suggestionsBox
      = some (x :: xs) := by
  simp [fetchCitySuggestionsComplete, displaySuggestions]

/-- Claim C10: on a fetchWeather invocation for a query city, the rendered
    city name is the part of the query before the first comma with surrounding
    whitespace trimmed, while currentCity and the favorite-membership glyph
    use the full untruncated query string; for a comma-containing query such
    as London, UK the two differ. -/
theorem displayCity_truncated_currentCity_full (city today : String)
    (w : RawWeather) (st : AppState) :
    ((fetchWeather city false (.parsed w) today st).1.currentCity = city) ∧
    ((fetchWeather city false (.parsed w) today st).1.display.cityName
      = jsDisplayCity city) ∧
    ((fetchWeather city false (.parsed w) today st).1.favGlyphFilled
      = st.favorites.any (fun c => jsToLower c == jsToLower city)) ∧
    jsDisplayCity "London, UK" = "London" := by
  refine ⟨fetchWeatherComplete_parsed_fst_currentCity city false w today _,
          fetchWeatherComplete_parsed_fst_cityName city false w today _, ?_, by decide⟩
  have h1 := fetchWeatherFinalize_fst_favGlyph false
    (fetchWeatherTryBody city w today (fetchWeatherStart false st))
  have h2 := fetchWeatherTryBody_fst_favGlyph city w today (fetchWeatherStart false st)
  exact h1.trans h2

end WeatherDashboard
